import Mathlib

/-!
Shallow embedding of `src/server.js` (maisonServeur backend).

The server keeps four JSON collections (maisons, utilisateurs, paiements,
transactions) and mutates them through whole-collection read-modify-write
route handlers.  Each handler below is embedded as a pure Lean function from
the collections it reads (plus the externally supplied fresh uuid and the
current timestamp, which the code obtains from `uuidv4()` / `new Date()`) to
the collections it writes together with the HTTP response it produces.

Conventions of the embedding:
* A field taken from `req.body` is `Option String` (absent = `undefined`);
  a JSON numeric body field is `Option Int`.
* JavaScript truthiness of such fields is `jsTruthy` / `jsTruthyInt`
  (`undefined`, `""` and `0` are falsy).
* `Number(string)` is `jsNumber`: integral decimal strings parse, a
  whitespace-only or empty string coerces to `0`, anything else is `none`
  (the embedding of `NaN`).  Numeric amounts are modelled as `Int`.
* Uploaded files live in a `store : List String` of stored file references;
  `fs.removeSync` on a file is removal from that list.
* In-place mutation of the record returned by `Array.prototype.find`
  (e.g. `m.statut = "valide"`) is `updateFirst` with the same predicate.
-/

set_option autoImplicit false

namespace MaisonServeur

/-- Truthiness of an optional string body field: `undefined` and `""` are falsy. -/
def jsTruthy : Option String → Bool
  | none => false
  | some s => !(s == "")

/-- Truthiness of an optional JSON number body field: `undefined` and `0` are falsy. -/
def jsTruthyInt : Option Int → Bool
  | none => false
  | some n => !(n == 0)

/-- The string content of an optional field (`""` when absent). -/
def strOf (o : Option String) : String := o.getD ""

/-- JavaScript `x || d` for an optional string field: keep `x` when truthy, else `d`. -/
def jsOrStr (o : Option String) (d : String) : String :=
  if jsTruthy o then strOf o else d

/-- JavaScript `x || null` for an optional string field. -/
def jsOrNull (o : Option String) : Option String :=
  if jsTruthy o then o else none

/-- JavaScript `n || d` for a number `n` (`0` is falsy). -/
def jsNumOr (n d : Int) : Int := if n == 0 then d else n

/-- `String.prototype.trim`, written by structural recursion over the
character list so that the kernel can evaluate it on concrete inputs. -/
def jsTrim (s : String) : String :=
  ⟨((s.data.dropWhile Char.isWhitespace).reverse.dropWhile Char.isWhitespace).reverse⟩

/-- The value of a decimal digit character. -/
def digitVal (c : Char) : Option Nat :=
  if c.isDigit then some (c.toNat - 48) else none

/-- Parse a non-empty all-digit character list as a natural number. -/
def parseNatChars (cs : List Char) : Option Nat :=
  match cs with
  | [] => none
  | _ => cs.foldl (fun acc c =>
      match acc, digitVal c with
      | some n, some d => some (n * 10 + d)
      | _, _ => none) (some 0)

/-- `Number(s)` for a string `s`, restricted to the integral values the claims
exercise: the string is trimmed, a whitespace-only string coerces to `0`, an
optionally signed decimal integer string parses, anything else is `none`
(the embedding of `NaN`). -/
def jsNumber (s : String) : Option Int :=
  match (jsTrim s).data with
  | [] => some 0
  | '-' :: rest => (parseNatChars rest).map (fun n => -(n : Int))
  | '+' :: rest => (parseNatChars rest).map (fun n => (n : Int))
  | cs => (parseNatChars cs).map (fun n => (n : Int))

/-- `Number(x)` for an optional string field (`Number(undefined)` is `NaN`). -/
def jsNumberOpt : Option String → Option Int
  | none => none
  | some s => jsNumber s

/-- Replace the first element satisfying `p` by its image under `f`
(the embedding of mutating the record returned by `find`). -/
def updateFirst {α : Type} (p : α → Bool) (f : α → α) : List α → List α
  | [] => []
  | x :: xs => if p x then f x :: xs else x :: updateFirst p f xs

/-- Outcome of an admin route: `badRequest` is the 400 "id requis" reply,
`notFound` the 404 reply, `ok` the 200 success reply carrying the new state. -/
inductive AdminRes (α : Type) : Type
  | badRequest
  | notFound
  | ok (a : α)
  deriving DecidableEq

/-- A record of `data/maisons.json` as built by `POST /api/maisons`. -/
structure Maison : Type where
  id : String
  titre : String
  description : String
  prix : Int
  ville : String
  commune : String
  quartier : String
  garantie : String
  localisation : String
  images : List String
  auteur : Option String
  statut : String
  refuseReason : Option String
  datePublication : Nat
  deriving DecidableEq

/-- A record of `data/utilisateurs.json`. -/
structure User : Type where
  id : String
  nom : String
  telephone : String
  maisons : List String
  deriving DecidableEq

/-- A record of `data/paiements.json`. -/
structure Paiement : Type where
  id : String
  utilisateur : String
  maison : String
  montant : Int
  reference : Option String
  methode : String
  statut : String
  refuseReason : Option String
  date : Nat
  receptionPhone : String
  deriving DecidableEq

/-- A record of `data/transactions.json`. -/
structure Transaction : Type where
  id : String
  paiementId : String
  montant : Int
  date : Nat
  deriving DecidableEq

/-! ### Paiements -/

/-- Body of `POST /api/paiements`. -/
structure PaiementBody : Type where
  utilisateurId : Option String
  maisonId : Option String
  montant : Option Int
  reference : Option String
  methode : Option String
  deriving DecidableEq

/-- Outcome of `POST /api/paiements`: 400 "utilisateurId, maisonId, montant requis",
or 200 with the new record. -/
inductive PostPaiementRes : Type
  | invalid
  | ok (p : Paiement)
  deriving DecidableEq

/-- `POST /api/paiements` (src/server.js lines 225-250): rejects when
`utilisateurId`, `maisonId` or `montant` is falsy, otherwise appends a new
pending payment snapshotting the configured reception phone. -/
def postPaiements (b : PaiementBody) (paiements : List Paiement)
    (newId : String) (now : Nat) (phone : String) :
    List Paiement × PostPaiementRes :=
  if !jsTruthy b.utilisateurId || !jsTruthy b.maisonId || !jsTruthyInt b.montant then
    (paiements, .invalid)
  else
    let p : Paiement :=
      { id := newId
        utilisateur := strOf b.utilisateurId
        maison := strOf b.maisonId
        montant := b.montant.getD 0
        reference := jsOrNull b.reference
        methode := jsOrStr b.methode "mobile_money"
        statut := "en_attente"
        refuseReason := none
        date := now
        receptionPhone := phone }
    (paiements ++ [p], .ok p)

/-- `POST /api/admin/validerPaiement` (src/server.js lines 328-342): finds the
payment, sets its `statut` to `"valide"` and unconditionally appends one
transaction carrying the payment's `montant`, its id and the current time. -/
def validerPaiement (paiementId : Option String) (paiements : List Paiement)
    (transactions : List Transaction) (txId : String) (now : Nat) :
    AdminRes (List Paiement × List Transaction) :=
  if !jsTruthy paiementId then .badRequest
  else
    match paiements.find? (fun x => x.id == strOf paiementId) with
    | none => .notFound
    | some p =>
        .ok (updateFirst (fun x => x.id == strOf paiementId)
               (fun x => { x with statut := "valide" }) paiements,
             transactions ++ [{ id := txId, paiementId := p.id,
                                montant := p.montant, date := now }])

/-- `POST /api/admin/refuserPaiement` (src/server.js lines 345-356). -/
def refuserPaiement (paiementId : Option String) (raison : Option String)
    (paiements : List Paiement) : AdminRes (List Paiement) :=
  if !jsTruthy paiementId then .badRequest
  else
    match paiements.find? (fun x => x.id == strOf paiementId) with
    | none => .notFound
    | some _ =>
        .ok (updateFirst (fun x => x.id == strOf paiementId)
               (fun x => { x with statut := "refuse",
                                  refuseReason := some (jsOrStr raison "") }) paiements)

/-! ### Maisons -/

/-- Body of `POST /api/maisons` (multipart form, so every field is a string). -/
structure MaisonBody : Type where
  titre : Option String
  description : Option String
  prix : Option String
  ville : Option String
  commune : Option String
  quartier : Option String
  garantie : Option String
  localisation : Option String
  auteur : Option String
  deriving DecidableEq

/-- `validateMaisonFields` (src/server.js lines 128-137): collects the error
labels of the required fields, in source order. -/
def validateMaisonFields (b : MaisonBody) : List String :=
  (if !jsTruthy b.titre || (jsTrim (strOf b.titre)).length < 3 then ["titre (min 3)"] else []) ++
  (if !jsTruthy b.prix || jsNumberOpt b.prix == none then ["prix (nombre)"] else []) ++
  (if !jsTruthy b.ville || (jsTrim (strOf b.ville)).length < 2 then ["ville"] else []) ++
  (if !jsTruthy b.commune || (jsTrim (strOf b.commune)).length < 1 then ["commune"] else []) ++
  (if !jsTruthy b.quartier || (jsTrim (strOf b.quartier)).length < 1 then ["quartier"] else [])

/-- Outcome of `POST /api/maisons`: 400 "Champs invalides" with the error list,
or 200 with the new record. -/
inductive PostMaisonRes : Type
  | invalid (errors : List String)
  | ok (m : Maison)
  deriving DecidableEq

/-- `POST /api/maisons` (src/server.js lines 159-201): `files` are the file
references multer already ingested into `store` for this request.  On a
validation failure every ingested file is removed from the store and nothing
is written; on success the first five files become the image urls of a new
pending record. -/
def postMaisons (b : MaisonBody) (files : List String) (maisons : List Maison)
    (store : List String) (newId : String) (now : Nat) :
    List Maison × List String × PostMaisonRes :=
  if (validateMaisonFields b).length != 0 then
    (maisons, store.filter (fun f => !(files.contains f)), .invalid (validateMaisonFields b))
  else
    let images := (files.take 5).map (fun f => "/uploads/" ++ f)
    let newMaison : Maison :=
      { id := newId
        titre := jsTrim (strOf b.titre)
        description := strOf b.description
        prix := (jsNumberOpt b.prix).getD 0
        ville := strOf b.ville
        commune := strOf b.commune
        quartier := strOf b.quartier
        garantie := jsOrStr b.garantie ""
        localisation := jsOrStr b.localisation ""
        images := images
        auteur := jsOrNull b.auteur
        statut := "en_attente"
        refuseReason := none
        datePublication := now }
    (maisons ++ [newMaison], store, .ok newMaison)

/-- `GET /api/maisons` (src/server.js lines 144-148): only the validated
records, in storage order. -/
def getMaisons (maisons : List Maison) : List Maison :=
  maisons.filter (fun m => m.statut == "valide")

/-- `POST /api/admin/validerMaison` (src/server.js lines 271-281): finds the
record and sets its `statut` to `"valide"`, whatever its previous status. -/
def validerMaison (id : Option String) (maisons : List Maison) :
    AdminRes (List Maison) :=
  if !jsTruthy id then .badRequest
  else
    match maisons.find? (fun m => m.id == strOf id) with
    | none => .notFound
    | some _ =>
        .ok (updateFirst (fun m => m.id == strOf id)
               (fun m => { m with statut := "valide" }) maisons)

/-- `POST /api/admin/refuserMaison` (src/server.js lines 284-295): sets
`statut` to `"refuse"` and `refuseReason` to `raison || ""`. -/
def refuserMaison (id : Option String) (raison : Option String)
    (maisons : List Maison) : AdminRes (List Maison) :=
  if !jsTruthy id then .badRequest
  else
    match maisons.find? (fun m => m.id == strOf id) with
    | none => .notFound
    | some _ =>
        .ok (updateFirst (fun m => m.id == strOf id)
               (fun m => { m with statut := "refuse",
                                  refuseReason := some (jsOrStr raison "") }) maisons)

/-- `POST /api/admin/supprimerMaison` (src/server.js lines 298-315): removes
the record and, best effort, its image files from the store (an image url
`/uploads/f` corresponds to the stored reference `f`). -/
def supprimerMaison (id : Option String) (maisons : List Maison)
    (store : List String) : AdminRes (List Maison × List String) :=
  if !jsTruthy id then .badRequest
  else
    match maisons.find? (fun m => m.id == strOf id) with
    | none => .notFound
    | some m =>
        .ok (maisons.filter (fun x => !(x.id == strOf id)),
             store.filter (fun f => !(m.images.contains ("/uploads/" ++ f))))

/-! ### Utilisateurs and stats -/

/-- `POST /api/admin/supprimerUtilisateur` (src/server.js lines 369-377):
no lookup is performed, the collection is filtered and the route always
replies with the 200 success message, an absent id included. -/
def supprimerUtilisateur (id : Option String) (users : List User) :
    AdminRes (List User) :=
  if !jsTruthy id then .badRequest
  else .ok (users.filter (fun x => !(x.id == strOf id)))

/-- Payload of `GET /api/admin/stats`. -/
structure Stats : Type where
  totalMaisons : Nat
  totalUsers : Nat
  totalPaiements : Nat
  revenusTotaux : Int
  deriving DecidableEq

/-- `GET /api/admin/stats` (src/server.js lines 380-392): a read-only
projection; the handler performs no write, which the embedding reflects by
returning only the `Stats` payload.  `revenusTotaux` folds `s + (t.montant || 0)`
over the transactions. -/
def computeStats (maisons : List Maison) (users : List User)
    (paiements : List Paiement) (transactions : List Transaction) : Stats :=
  { totalMaisons := maisons.length
    totalUsers := users.length
    totalPaiements := paiements.length
    revenusTotaux := transactions.foldl (fun s t => s + jsNumOr t.montant 0) 0 }

/-! ### Concrete records used to instantiate the theorems -/

/-- A concrete maison record as `POST /api/maisons` builds it from `exBody`. -/
def exMaison (prix : Int) (statut : String) (reason : Option String) : Maison :=
  { id := "m1", titre := "Belle maison", description := "", prix := prix,
    ville := "Kinshasa", commune := "Gombe", quartier := "Q1", garantie := "",
    localisation := "", images := [], auteur := none, statut := statut,
    refuseReason := reason, datePublication := 0 }

/-- A concrete submission body for `POST /api/maisons`. -/
def exBody (prix : Option String) : MaisonBody :=
  { titre := some "Belle maison", description := none, prix := prix,
    ville := some "Kinshasa", commune := some "Gombe", quartier := some "Q1",
    garantie := none, localisation := none, auteur := none }

/-- A concrete payment record as `POST /api/paiements` builds it. -/
def exPaiement (montant : Int) (statut : String) : Paiement :=
  { id := "p1", utilisateur := "u1", maison := "m1", montant := montant,
    reference := none, methode := "mobile_money", statut := statut,
    refuseReason := none, date := 0, receptionPhone := "+243831401205" }

/-- A concrete transaction for payment "p1" of montant 100. -/
def exTx (txId : String) (now : Nat) : Transaction :=
  { id := txId, paiementId := "p1", montant := 100, date := now }

/-- A concrete user record. -/
def exUser : User :=
  { id := "u1", nom := "Ben", telephone := "0099", maisons := [] }

/-! ### Helper lemmas about `updateFirst` and the fold of the stats route -/

/-- `find?` after `updateFirst` with the same predicate: when `f` preserves the
predicate, the found element is the image of the previously found one. -/
theorem find?_updateFirst {α : Type} (p : α → Bool) (f : α → α)
    (hpf : ∀ a, p a = true → p (f a) = true) :
    ∀ (l : List α) (a : α), l.find? p = some a →
      (updateFirst p f l).find? p = some (f a) := by
  intro l
  induction l with
  | nil => intro a h; simp [List.find?] at h
  | cons x xs ih =>
    intro a h
    by_cases hx : p x = true
    · rw [List.find?_cons_of_pos _ hx] at h
      injection h with h
      rw [← h]
      unfold updateFirst
      rw [if_pos hx]
      exact List.find?_cons_of_pos _ (hpf x hx)
    · rw [List.find?_cons_of_neg _ hx] at h
      unfold updateFirst
      rw [if_neg hx, List.find?_cons_of_neg _ hx]
      exact ih a h

/-- An element not satisfying the predicate is untouched by `updateFirst`. -/
theorem mem_updateFirst_of_neg {α : Type} (p : α → Bool) (f : α → α) :
    ∀ (l : List α) (a : α), a ∈ l → p a = false → a ∈ updateFirst p f l := by
  intro l
  induction l with
  | nil => intro a ha _; cases ha
  | cons x xs ih =>
    intro a ha hpa
    unfold updateFirst
    by_cases hx : p x = true
    · rw [if_pos hx]
      rcases List.mem_cons.mp ha with h | h
      · subst h; rw [hpa] at hx; cases hx
      · exact List.mem_cons_of_mem _ h
    · rw [if_neg hx]
      rcases List.mem_cons.mp ha with h | h
      · subst h; exact List.mem_cons_self _ _
      · exact List.mem_cons_of_mem _ (ih a h hpa)

/-- In a collection with pairwise distinct ids, validating targets exactly the
record carrying the requested id, whatever its previous `statut`. -/
theorem valide_mem_updateFirst (id : String) :
    ∀ (l : List Maison) (m : Maison),
      l.Pairwise (fun a b => a.id ≠ b.id) → m ∈ l → m.id = id →
      { m with statut := "valide" } ∈
        updateFirst (fun x => x.id == id) (fun x => { x with statut := "valide" }) l := by
  intro l
  induction l with
  | nil => intro m _ hm _; cases hm
  | cons x xs ih =>
    intro m hpw hm hid
    unfold updateFirst
    rcases List.mem_cons.mp hm with h | h
    · subst h
      rw [if_pos (by simp [hid])]
      exact List.mem_cons_self _ _
    · have hx : x.id ≠ m.id := (List.pairwise_cons.mp hpw).1 m h
      have hxid : ¬((x.id == id) = true) := by
        simp only [beq_iff_eq]
        exact fun hc => hx (hc.trans hid.symm)
      rw [if_neg hxid]
      exact List.mem_cons_of_mem _ (ih m (List.pairwise_cons.mp hpw).2 h hid)

/-- Setting `statut` on the first matching record never touches `refuseReason`. -/
theorem updateFirst_map_refuseReason (pid : String) :
    ∀ l : List Maison,
      (updateFirst (fun m => m.id == pid) (fun m => { m with statut := "valide" }) l).map
          Maison.refuseReason = l.map Maison.refuseReason := by
  intro l
  induction l with
  | nil => rfl
  | cons x xs ih =>
    unfold updateFirst
    by_cases hx : (x.id == pid) = true
    · rw [if_pos hx]; simp
    · rw [if_neg hx]; simp [ih]

/-- Inversion of a successful `validerMaison` call: the new collection is the
old one with the first matching record set to `"valide"`. -/
theorem validerMaison_ok_inv (id : Option String) (ms ms' : List Maison)
    (h : validerMaison id ms = .ok ms') :
    ms' = updateFirst (fun m => m.id == strOf id)
            (fun m => { m with statut := "valide" }) ms := by
  unfold validerMaison at h
  split at h
  · exact (AdminRes.noConfusion h)
  · split at h
    · exact (AdminRes.noConfusion h)
    · injection h with h
      exact h.symm

/-- `n || 0` is `n` for an integer `n`. -/
theorem jsNumOr_zero (n : Int) : jsNumOr n 0 = n := by
  unfold jsNumOr
  split <;> simp_all

/-- The fold of `GET /api/admin/stats` computes `init` plus the sum of the
transaction amounts. -/
theorem foldl_add_montant :
    ∀ (l : List Transaction) (init : Int),
      l.foldl (fun s t => s + jsNumOr t.montant 0) init =
        init + (l.map Transaction.montant).sum := by
  intro l
  induction l with
  | nil => intro init; simp
  | cons t ts ih =>
    intro init
    rw [List.foldl_cons, ih, jsNumOr_zero, List.map_cons, List.sum_cons]
    ring

/-! ### Claim theorems -/

/-- Claim C1, behavior of the code at the failing input: payment "p1"
(montant 100, statut "en_attente") is approved twice.  The second approve
appends a second transaction, so the ledger after the second call differs
from the ledger after the first — `POST /api/admin/validerPaiement` is not
idempotent with respect to the transaction collection. -/
theorem double_approve_duplicates_transaction :
    validerPaiement (some "p1") [exPaiement 100 "en_attente"] [] "t1" 10 =
      .ok ([exPaiement 100 "valide"], [exTx "t1" 10])
    ∧ validerPaiement (some "p1") [exPaiement 100 "valide"] [exTx "t1" 10] "t2" 20 =
      .ok ([exPaiement 100 "valide"], [exTx "t1" 10, exTx "t2" 20])
    ∧ [exTx "t1" 10, exTx "t2" 20] ≠ [exTx "t1" 10] := by decide

/-- Claim C2, counterexample: a payment creation with the negative amount -5
does not fail; it persists a payment record whose montant is -5 < 0, because
the route only tests JavaScript truthiness of `montant`. -/
theorem negative_amount_accepted_cex :
    postPaiements ⟨some "u1", some "m1", some (-5), none, none⟩ [] "p1" 0 "+243831401205" =
      ([exPaiement (-5) "en_attente"], .ok (exPaiement (-5) "en_attente"))
    ∧ (exPaiement (-5) "en_attente").montant < 0 := by decide

/-- Claim C3, counterexample: a listing observed in statut "refuse" is later
observed in statut "valide" — `POST /api/admin/validerMaison` performs no
status check, so the rejected-to-approved transition is reachable. -/
theorem rejected_then_approved_cex :
    refuserMaison (some "m1") (some "bad") [exMaison 100 "en_attente" none] =
      .ok [exMaison 100 "refuse" (some "bad")]
    ∧ validerMaison (some "m1") [exMaison 100 "refuse" (some "bad")] =
      .ok [exMaison 100 "valide" (some "bad")] := by decide

/-- Claim C4, counterexample: validating a previously rejected listing yields
an approved record that still carries the refuseReason set by the reject. -/
theorem approved_keeps_refuse_reason_cex :
    validerMaison (some "m1") [exMaison 100 "refuse" (some "bad")] =
      .ok [exMaison 100 "valide" (some "bad")]
    ∧ (exMaison 100 "valide" (some "bad")).statut = "valide"
    ∧ (exMaison 100 "valide" (some "bad")).refuseReason = some "bad" := by decide

/-- Claim C4 (amended): `POST /api/admin/validerMaison` never clears
`refuseReason` — the reason set by a reject persists on every record through
a later validation, so it can be present on an approved record. -/
theorem valider_preserves_refuse_reason
    (id : Option String) (ms ms' : List Maison)
    (h : validerMaison id ms = .ok ms') :
    ms'.map Maison.refuseReason = ms.map Maison.refuseReason := by
  rw [validerMaison_ok_inv id ms ms' h]
  exact updateFirst_map_refuseReason (strOf id) ms

/-- Witness for the amended C4 theorem at a concrete rejected listing. -/
theorem valider_preserves_refuse_reason_witness :
    ([exMaison 100 "valide" (some "bad")].map Maison.refuseReason) =
      ([exMaison 100 "refuse" (some "bad")].map Maison.refuseReason) :=
  valider_preserves_refuse_reason (some "m1")
    [exMaison 100 "refuse" (some "bad")] [exMaison 100 "valide" (some "bad")]
    (by decide)

/-- Claim C6: `GET /api/maisons` returns exactly the maisons whose statut is
"valide" — membership is equivalent to being a stored record with statut
"valide", and the returned list is a sublist of the stored collection, hence
in storage order; in particular no returned record has another statut. -/
theorem get_maisons_only_valide (ms : List Maison) :
    (∀ m : Maison, m ∈ getMaisons ms ↔ (m ∈ ms ∧ m.statut = "valide"))
    ∧ (getMaisons ms).Sublist ms := by
  constructor
  · intro m
    simp [getMaisons, List.mem_filter]
  · exact List.filter_sublist ms

/-- Claim C7, counterexample: a submission with prix "-5" passes validation
and is persisted with the negative stored price -5. -/
theorem negative_price_accepted_cex :
    postMaisons (exBody (some "-5")) [] [] [] "m1" 0 =
      ([exMaison (-5) "en_attente" none], [], .ok (exMaison (-5) "en_attente" none))
    ∧ (exMaison (-5) "en_attente" none).prix < 0 := by decide

/-- Claim C9: `GET /api/admin/stats` is a pure read (the handler writes no
collection, which the embedding reflects by returning only the `Stats`
payload) and `revenusTotaux` equals the sum of all transaction amounts, for
every state of the store; the three counters equal the collection sizes. -/
theorem stats_revenus_is_sum (maisons : List Maison) (users : List User)
    (paiements : List Paiement) (transactions : List Transaction) :
    (computeStats maisons users paiements transactions).revenusTotaux =
      (transactions.map Transaction.montant).sum
    ∧ (computeStats maisons users paiements transactions).totalMaisons = maisons.length
    ∧ (computeStats maisons users paiements transactions).totalUsers = users.length
    ∧ (computeStats maisons users paiements transactions).totalPaiements = paiements.length := by
  refine ⟨?_, rfl, rfl, rfl⟩
  unfold computeStats
  exact foldl_add_montant transactions 0 |>.trans (by ring)

/-- Claim C2 (amended): `POST /api/paiements` fails with the validation error
and persists nothing exactly when `utilisateurId`, `maisonId` or `montant` is
falsy (missing, empty, or the amount zero); any other amount — a negative one
included — is accepted, appending exactly one payment with that amount. -/
theorem paiement_validation_characterization :
    (∀ (b : PaiementBody) (ps : List Paiement) (nid : String) (now : Nat) (phone : String),
        (jsTruthy b.utilisateurId && jsTruthy b.maisonId && jsTruthyInt b.montant) = false →
        postPaiements b ps nid now phone = (ps, .invalid))
    ∧ (∀ (b : PaiementBody) (ps : List Paiement) (nid : String) (now : Nat) (phone : String)
        (v : Int),
        b.montant = some v → v ≠ 0 →
        jsTruthy b.utilisateurId = true → jsTruthy b.maisonId = true →
        ((postPaiements b ps nid now phone).1).map Paiement.montant =
          ps.map Paiement.montant ++ [v]) := by
  constructor
  · intro b ps nid now phone h
    unfold postPaiements
    cases h1 : jsTruthy b.utilisateurId <;> cases h2 : jsTruthy b.maisonId <;>
      cases h3 : jsTruthyInt b.montant <;> simp_all
  · intro b ps nid now phone v hv hv0 h1 h2
    have h3 : jsTruthyInt b.montant = true := by simp [jsTruthyInt, hv, hv0]
    unfold postPaiements
    rw [h1, h2, h3]
    simp [hv]

/-- Witness for the amended C2 theorem: a missing amount is rejected with the
collection unchanged, and the amount -5 is accepted and persisted. -/
theorem paiement_validation_witness :
    postPaiements ⟨some "u1", some "m1", none, none, none⟩ [] "p2" 0 "+243831401205" =
      ([], .invalid)
    ∧ ((postPaiements ⟨some "u1", some "m1", some (-5), none, none⟩ [] "p2" 0
          "+243831401205").1).map Paiement.montant =
        ([] : List Paiement).map Paiement.montant ++ [(-5 : Int)] :=
  ⟨paiement_validation_characterization.1 _ _ _ _ _ (by decide),
   paiement_validation_characterization.2 _ _ _ _ _ (-5) rfl (by decide) (by decide) (by decide)⟩

/-- Claim C3 (amended): creation puts a listing in statut "en_attente", and
`POST /api/admin/validerMaison` sets the targeted record to "valide" from any
previous statut (idempotently for an already approved one) while leaving the
other records unchanged; since no status check is performed, the
rejected-to-approved transition is reachable. -/
theorem maison_status_transitions :
    (∀ (b : MaisonBody) (files : List String) (ms : List Maison) (store : List String)
        (nid : String) (now : Nat) (m : Maison),
        (postMaisons b files ms store nid now).2.2 = .ok m → m.statut = "en_attente")
    ∧ (∀ (id : String) (ms ms' : List Maison),
        ms.Pairwise (fun a b => a.id ≠ b.id) →
        validerMaison (some id) ms = .ok ms' →
        ∀ m ∈ ms, (m.id = id → { m with statut := "valide" } ∈ ms')
          ∧ (m.id ≠ id → m ∈ ms')) := by
  constructor
  · intro b files ms store nid now m h
    unfold postMaisons at h
    split at h
    · exact (PostMaisonRes.noConfusion h)
    · injection h with h
      rw [← h]
  · intro id ms ms' hpw h m hm
    have hms' := validerMaison_ok_inv (some id) ms ms' h
    constructor
    · intro hid
      rw [hms']
      exact valide_mem_updateFirst id ms m hpw hm hid
    · intro hne
      rw [hms']
      refine mem_updateFirst_of_neg _ _ ms m hm ?_
      have hs : strOf (some id) = id := rfl
      rw [hs, beq_eq_false_iff_ne]
      exact hne

/-- Witness for the amended C3 theorem: a created listing is pending, and
validating a concrete rejected listing puts its approved version in the new
collection. -/
theorem maison_status_transitions_witness :
    (exMaison 100 "en_attente" none).statut = "en_attente"
    ∧ { exMaison 100 "refuse" (some "bad") with statut := "valide" } ∈
        [exMaison 100 "valide" (some "bad")] :=
  ⟨maison_status_transitions.1 (exBody (some "100")) [] [] [] "m1" 0
      (exMaison 100 "en_attente" none) (by decide),
   (maison_status_transitions.2 "m1" [exMaison 100 "refuse" (some "bad")]
      [exMaison 100 "valide" (some "bad")] (by simp)
      (by decide) (exMaison 100 "refuse" (some "bad")) (by simp)).1 (by decide)⟩

/-- Claim C5: approving a payment found as pending appends to the ledger
exactly one transaction carrying the payment's montant, the payment's id and
the current timestamp, and the payment is found with statut "valide"
afterwards. -/
theorem approve_appends_one_transaction
    (pid : String) (paiements : List Paiement) (transactions : List Transaction)
    (txId : String) (now : Nat) (p : Paiement)
    (hpid : pid ≠ "")
    (hfind : paiements.find? (fun x => x.id == pid) = some p)
    (_hpend : p.statut = "en_attente") :
    validerPaiement (some pid) paiements transactions txId now =
      .ok (updateFirst (fun x => x.id == pid) (fun x => { x with statut := "valide" })
             paiements,
           transactions ++ [{ id := txId, paiementId := p.id,
                              montant := p.montant, date := now }])
    ∧ (updateFirst (fun x => x.id == pid) (fun x => { x with statut := "valide" })
         paiements).find? (fun x => x.id == pid) =
        some { p with statut := "valide" } := by
  constructor
  · unfold validerPaiement
    have ht : (!jsTruthy (some pid)) = false := by simp [jsTruthy, hpid]
    rw [ht]
    have hs : strOf (some pid) = pid := rfl
    simp only [Bool.false_eq_true, if_false, hs]
    rw [hfind]
  · exact find?_updateFirst (fun x => x.id == pid)
      (fun x => { x with statut := "valide" }) (fun a ha => ha) paiements p hfind

/-- Witness for C5 at a concrete pending payment of montant 100. -/
theorem approve_appends_one_transaction_witness :
    validerPaiement (some "p1") [exPaiement 100 "en_attente"] [] "t1" 10 =
      .ok (updateFirst (fun x => x.id == "p1") (fun x => { x with statut := "valide" })
             [exPaiement 100 "en_attente"],
           [] ++ [{ id := "t1", paiementId := "p1", montant := 100, date := 10 }])
    ∧ (updateFirst (fun x => x.id == "p1") (fun x => { x with statut := "valide" })
         [exPaiement 100 "en_attente"]).find? (fun x => x.id == "p1") =
        some { exPaiement 100 "en_attente" with statut := "valide" } :=
  approve_appends_one_transaction "p1" [exPaiement 100 "en_attente"] [] "t1" 10
    (exPaiement 100 "en_attente") (by decide) (by decide) (by decide)

/-- Claim C7 (amended): a persisted listing stores exactly the numeric parse
of the submitted prix — validation only requires `Number(prix)` not to be
`NaN`, so the stored price has no sign constraint. -/
theorem stored_price_is_parsed_price
    (b : MaisonBody) (files : List String) (ms : List Maison) (store : List String)
    (nid : String) (now : Nat) (ms' : List Maison) (store' : List String) (m : Maison)
    (h : postMaisons b files ms store nid now = (ms', store', .ok m)) :
    jsNumberOpt b.prix = some m.prix := by
  unfold postMaisons at h
  split at h
  · have h3 := congrArg (fun t => t.2.2) h
    simp at h3
  · rename_i hc
    have hval : validateMaisonFields b = [] := by
      rw [← List.length_eq_zero]
      simpa using hc
    have hcond : (!jsTruthy b.prix || jsNumberOpt b.prix == none) = false := by
      by_contra hcc
      have hcc' : (!jsTruthy b.prix || jsNumberOpt b.prix == none) = true :=
        eq_true_of_ne_false fun hf => hcc hf
      unfold validateMaisonFields at hval
      rw [hcc'] at hval
      simp [List.append_eq_nil] at hval
    obtain ⟨v, hv⟩ : ∃ v, jsNumberOpt b.prix = some v := by
      rcases hjp : jsNumberOpt b.prix with _ | v
      · rw [hjp] at hcond
        simp at hcond
      · exact ⟨v, rfl⟩
    have h3 := congrArg (fun t => t.2.2) h
    simp only [PostMaisonRes.ok.injEq] at h3
    rw [← h3, hv]
    simp

/-- Witness for the amended C7 theorem at a submission with prix "100". -/
theorem stored_price_is_parsed_price_witness :
    jsNumberOpt (exBody (some "100")).prix = some ((exMaison 100 "en_attente" none).prix) :=
  stored_price_is_parsed_price (exBody (some "100")) [] [] [] "m1" 0
    [exMaison 100 "en_attente" none] [] (exMaison 100 "en_attente" none) (by decide)

/-- Claim C8: a submission whose prix field is "abc" fails validation with an
error list containing "prix (nombre)", leaves the maisons collection
unchanged, and every file ingested for the request is removed from storage. -/
theorem abc_price_rejected_files_cleaned
    (b : MaisonBody) (files : List String) (ms : List Maison) (store : List String)
    (nid : String) (now : Nat)
    (habc : b.prix = some "abc") :
    "prix (nombre)" ∈ validateMaisonFields b
    ∧ (postMaisons b files ms store nid now).1 = ms
    ∧ (postMaisons b files ms store nid now).2.2 = .invalid (validateMaisonFields b)
    ∧ ∀ f ∈ files, f ∉ (postMaisons b files ms store nid now).2.1 := by
  have hpr : (if !jsTruthy b.prix || jsNumberOpt b.prix == none
      then ["prix (nombre)"] else ([] : List String)) = ["prix (nombre)"] := by
    rw [habc]
    decide
  have hmem : "prix (nombre)" ∈ validateMaisonFields b := by
    unfold validateMaisonFields
    rw [hpr]
    simp only [List.append_assoc, List.mem_append]
    right; left
    exact List.mem_singleton_self _
  have hlen : ((validateMaisonFields b).length != 0) = true := by
    have hne : validateMaisonFields b ≠ [] := List.ne_nil_of_mem hmem
    simpa [List.length_eq_zero] using hne
  refine ⟨hmem, ?_, ?_, ?_⟩
  · unfold postMaisons
    rw [if_pos hlen]
  · unfold postMaisons
    rw [if_pos hlen]
  · intro f hf
    unfold postMaisons
    rw [if_pos hlen]
    intro hmemf
    have hkeep := (List.mem_filter.mp hmemf).2
    have hc : files.contains f = true := List.elem_eq_true_of_mem hf
    rw [hc] at hkeep
    simp at hkeep

/-- Witness for C8: the concrete submission with prix "abc" and one ingested
file "a.jpg" fails with the price error, writes nothing, and the file is
gone from the store. -/
theorem abc_price_rejected_files_cleaned_witness :
    "prix (nombre)" ∈ validateMaisonFields (exBody (some "abc"))
    ∧ (postMaisons (exBody (some "abc")) ["a.jpg"] [] ["a.jpg"] "m1" 0).1 = []
    ∧ "a.jpg" ∉ (postMaisons (exBody (some "abc")) ["a.jpg"] [] ["a.jpg"] "m1" 0).2.1 :=
  ⟨(abc_price_rejected_files_cleaned (exBody (some "abc")) ["a.jpg"] [] ["a.jpg"] "m1" 0 rfl).1,
   (abc_price_rejected_files_cleaned (exBody (some "abc")) ["a.jpg"] [] ["a.jpg"] "m1" 0 rfl).2.1,
   (abc_price_rejected_files_cleaned (exBody (some "abc")) ["a.jpg"] [] ["a.jpg"] "m1" 0 rfl).2.2.2
     "a.jpg" (by simp)⟩

/-- Claim C10: `POST /api/admin/supprimerUtilisateur` with an id absent from
the collection replies with the success message (there is no not-found
branch) and leaves the users collection unchanged. -/
theorem delete_absent_user_succeeds_unchanged
    (id : String) (users : List User)
    (hid : id ≠ "") (habs : ∀ u ∈ users, u.id ≠ id) :
    supprimerUtilisateur (some id) users = .ok users := by
  unfold supprimerUtilisateur
  have ht : (!jsTruthy (some id)) = false := by simp [jsTruthy, hid]
  rw [ht]
  simp only [Bool.false_eq_true, if_false]
  have : users.filter (fun x => !(x.id == strOf (some id))) = users := by
    rw [List.filter_eq_self]
    intro u hu
    simp [strOf, habs u hu]
  rw [this]

/-- Witness for C10: deleting the absent id "u2" leaves the singleton user
collection unchanged and succeeds. -/
theorem delete_absent_user_witness :
    supprimerUtilisateur (some "u2") [exUser] = .ok [exUser] :=
  delete_absent_user_succeeds_unchanged "u2" [exUser] (by decide) (by decide)

end MaisonServeur
